import Mathlib

/-!
Shallow embedding of the GitHub MCP worker (src/index.ts): the tool
registry, the per-operation handlers, and their response-normalization
behaviour.  Upstream HTTP responses are modelled as explicit oracle
inputs: each handler receives the status and raw body of every response
it would fetch, together with the parsed JSON fields the TypeScript code
reads off that response (the code casts `await res.json()` without
validation, so the parsed shape is part of the oracle).  Handlers that
issue several requests also return the ordered list of request paths
they issued, so that claims about which upstream calls happen can be
stated.
-/

/-- An upstream HTTP response: status code and raw body text
(`res.status` and `await res.text()`). -/
structure HttpResp where
  status : Nat
  body : String
  deriving Repr, DecidableEq

/-- The `res.ok` predicate of the Fetch API: status in the inclusive
range 200–299. -/
def okResp (r : HttpResp) : Bool :=
  decide (200 ≤ r.status ∧ r.status ≤ 299)

/-- The result envelope every handler returns.  In the source the
content is a list of typed blocks, but every handler returns exactly one
text block, so the envelope is modelled as that single text plus the
`isError` flag. -/
structure Envelope where
  text : String
  isError : Bool
  deriving Repr, DecidableEq

/-- The uniform upstream-rejection envelope
`\x7b content: [Error <status>: <body>], isError: true \x7d` shared verbatim by
every handler except create_pr. -/
def errEnvelope (r : HttpResp) : Envelope :=
  { text := "Error " ++ toString r.status ++ ": " ++ r.body, isError := true }

/-- JavaScript truthiness of an optional string: `undefined` and the
empty string are falsy, every other string is truthy. -/
def jsStrTruthy : Option String → Bool
  | none => false
  | some s => s != ""

/-- Operation names, in source registration order (the thirteen
`this.server.tool(...)` calls of `GitHubMCP.init`). -/
def toolNames : List String :=
  ["read_file", "write_file", "list_files", "search_files",
   "list_branches", "get_file_tree", "list_prs", "get_pr",
   "create_pr", "merge_pr", "close_pr", "add_pr_comment",
   "request_pr_review"]

/-! Base64 and UTF-8, modelling the JavaScript builtins `btoa`, `atob`,
and the classic `unescape(encodeURIComponent(s))` byte-string trick. -/

/-- The base64 alphabet, as a list of characters. -/
def b64Alphabet : List Char :=
  "ABCDEFGHIJKLMNOPQRSTUVWXYZabcdefghijklmnopqrstuvwxyz0123456789+/".data

/-- Character for a 6-bit value (defined for n < 64). -/
def b64Char (n : Nat) : Char := b64Alphabet.getD n '='

/-- The 6-bit value of a base64 character (junk value 64 for characters
outside the alphabet, including the padding character). -/
def b64Val (c : Char) : Nat := b64Alphabet.indexOf c

/-- Base64 encoding of a byte list, three bytes to four characters with
trailing padding, as performed by `btoa` on a binary string. -/
def base64EncodeList : List Nat → List Char
  | [] => []
  | [a] =>
      [b64Char (a / 4), b64Char (a % 4 * 16), '=', '=']
  | [a, b] =>
      [b64Char (a / 4), b64Char (a % 4 * 16 + b / 16), b64Char (b % 16 * 4), '=']
  | a :: b :: c :: rest =>
      b64Char (a / 4) :: b64Char (a % 4 * 16 + b / 16) ::
      b64Char (b % 16 * 4 + c / 64) :: b64Char (c % 64) ::
      base64EncodeList rest

/-- Base64 decoding of a character list to bytes, as performed by
`atob` (on invalid input `atob` throws; this model is only relied on
for well-formed base64). -/
def base64DecodeList : List Char → List Nat
  | p :: q :: r :: s :: rest =>
      if r = '=' then
        [b64Val p * 4 + b64Val q / 16]
      else if s = '=' then
        [b64Val p * 4 + b64Val q / 16, b64Val q % 16 * 16 + b64Val r / 4]
      else
        (b64Val p * 4 + b64Val q / 16) :: (b64Val q % 16 * 16 + b64Val r / 4) ::
        (b64Val r % 4 * 64 + b64Val s) :: base64DecodeList rest
  | _ => []

/-- UTF-8 byte sequence of a Unicode code point. -/
def utf8Bytes (c : Nat) : List Nat :=
  if c < 128 then [c]
  else if c < 2048 then [192 + c / 64, 128 + c % 64]
  else if c < 65536 then [224 + c / 4096, 128 + c / 64 % 64, 128 + c % 64]
  else [240 + c / 262144, 128 + c / 4096 % 64, 128 + c / 64 % 64, 128 + c % 64]

/-- UTF-8 bytes of a whole string: this is what
`unescape(encodeURIComponent(s))` produces in JavaScript, one byte per
character of the intermediate binary string. -/
def utf8BytesOfString (s : String) : List Nat :=
  (s.data.map (fun c => utf8Bytes c.toNat)).flatten

/-- write_file's outgoing content encoding:
`btoa(unescape(encodeURIComponent(content)))`. -/
def encodeContent (s : String) : String :=
  String.mk (base64EncodeList (utf8BytesOfString s))

/-- read_file's decoding: `atob(content.replace(/\n/g, ""))`.  Note the
result is the decoded BYTE string, one character per byte — `atob` does
not reverse the UTF-8 encoding step of the write path. -/
def atobStr (s : String) : String :=
  String.mk ((base64DecodeList (s.data.filter (fun c => c ≠ '\n'))).map Char.ofNat)

/-! The read_file handler. -/

/-- Parsed JSON fields read_file consumes from a success response
(`data.type` and `data.content`; absent fields are `none`). -/
structure FileData where
  type : Option String
  content : Option String
  deriving Repr, DecidableEq

/-- Upstream oracle for read_file: the single contents response and its
parsed shape. -/
structure ReadFileUpstream where
  res : HttpResp
  data : FileData
  deriving Repr, DecidableEq

/-- The guidance text returned when the path is not a regular file. -/
def dirErrorText (path : String) : String :=
  "Path '" ++ path ++ "' is a directory, not a file. Use list_files instead."

/-- The read_file handler.  The source tests
`data.type !== "file" || !data.content`; the second disjunct is JS
falsiness, true for both an absent and an empty content string. -/
def read_file (u : ReadFileUpstream) (path : String) : Envelope :=
  if !(okResp u.res) then errEnvelope u.res
  else if u.data.type != some "file" || u.data.content.getD "" == "" then
    { text := dirErrorText path, isError := true }
  else
    { text := atobStr (u.data.content.getD ""), isError := false }

/-! The write_file handler. -/

/-- Upstream oracle for write_file: the preliminary existence-check
response with its parsed `data.sha`, then the PUT response with its
parsed `result.commit?.sha`. -/
structure WriteUpstream where
  existingRes : HttpResp
  existingSha : Option String
  putRes : HttpResp
  putCommitSha : Option String
  deriving Repr, DecidableEq

/-- The JSON body of write_file's PUT request; `sha` is present only
when the existence check produced a truthy sha. -/
structure PutBody where
  message : String
  content : String
  branch : String
  sha : Option String
  deriving Repr, DecidableEq

/-- What write_file produces: the PUT body it sent and the envelope it
returned. -/
structure WriteResult where
  putBody : PutBody
  env : Envelope
  deriving Repr, DecidableEq

/-- The ref used by every handler taking an optional branch:
`branch || "main"` (JS truthiness, so an empty branch string also falls
back to "main"). -/
def refOf (branch : Option String) : String :=
  if jsStrTruthy branch then branch.getD "" else "main"

/-- The sha variable after write_file's existence check: `data.sha`
when the check response was ok, else undefined. -/
def writeCheckSha (u : WriteUpstream) : Option String :=
  if okResp u.existingRes then u.existingSha else none

/-- The rendered short commit id:
`result.commit?.sha?.slice(0, 7) || "unknown"`. -/
def writeShortSha (u : WriteUpstream) : String :=
  match u.putCommitSha with
  | none => "unknown"
  | some s => if s.take 7 == "" then "unknown" else s.take 7

/-- The write_file handler.  The existence check's failure is swallowed
(`if (existing.ok)`), and both the PUT body's sha field and the
created/updated wording depend on JS truthiness of the same variable. -/
def write_file (u : WriteUpstream) (path content message : String)
    (branch : Option String) : WriteResult :=
  let ref := refOf branch
  let sha := writeCheckSha u
  let body : PutBody :=
    { message := message, content := encodeContent content, branch := ref,
      sha := if jsStrTruthy sha then sha else none }
  if !(okResp u.putRes) then
    { putBody := body, env := errEnvelope u.putRes }
  else
    { putBody := body,
      env := { text := "File " ++ (if jsStrTruthy sha then "updated" else "created")
                 ++ ": " ++ path ++ " (commit: " ++ writeShortSha u ++ ")",
               isError := false } }

/-! The list_files handler. -/

/-- One entry of a directory listing response. -/
structure DirItem where
  name : String
  type : String
  size : Option Nat
  path : String
  deriving Repr, DecidableEq

/-- Upstream oracle for list_files: the response and its parsed body,
`none` when the JSON body is not an array (the `Array.isArray` check). -/
structure ListFilesUpstream where
  res : HttpResp
  items : Option (List DirItem)
  deriving Repr, DecidableEq

/-- Rendered line for one directory item: kind glyph, path, and the
size suffix (present only for a truthy, i.e. nonzero, size). -/
def dirItemLine (item : DirItem) : String :=
  let icon := if item.type == "dir" then "📁" else "📄"
  let sizeSuffix := match item.size with
    | some n => if n != 0 then " (" ++ toString n ++ "B)" else ""
    | none => ""
  icon ++ " " ++ item.path ++ sizeSuffix

/-- The list_files handler. -/
def list_files (u : ListFilesUpstream) (path : Option String) : Envelope :=
  let dirPath := path.getD ""
  if !(okResp u.res) then errEnvelope u.res
  else match u.items with
    | none =>
        { text := "Path '" ++ dirPath ++ "' is a file, not a directory. Use read_file instead.",
          isError := true }
    | some items =>
        let listing := String.intercalate "\n" (items.map dirItemLine)
        { text := if listing == "" then "(empty directory)" else listing,
          isError := false }

/-! The search_files handler. -/

/-- One code-search result item. -/
structure SearchItem where
  path : String
  name : String
  deriving Repr, DecidableEq

/-- Parsed code-search response body. -/
structure SearchData where
  total_count : Nat
  items : List SearchItem
  deriving Repr, DecidableEq

/-- Upstream oracle for search_files. -/
structure SearchUpstream where
  res : HttpResp
  data : SearchData
  deriving Repr, DecidableEq

/-- The search_files handler. -/
def search_files (u : SearchUpstream) (query : String) : Envelope :=
  if !(okResp u.res) then errEnvelope u.res
  else if u.data.total_count == 0 then
    { text := "No results found for: " ++ query, isError := false }
  else
    { text := "Found " ++ toString u.data.total_count ++ " result(s):\n"
        ++ String.intercalate "\n" (u.data.items.map (fun i => "  " ++ i.path)),
      isError := false }

/-! The list_branches handler. -/

/-- One branch of the branches listing (`name` and `commit.sha`). -/
structure BranchInfo where
  name : String
  commitSha : String
  deriving Repr, DecidableEq

/-- Upstream oracle for list_branches. -/
structure BranchesUpstream where
  res : HttpResp
  branches : List BranchInfo
  deriving Repr, DecidableEq

/-- Rendered line for one branch: name and the commit sha truncated to
seven characters (`b.commit.sha.slice(0, 7)`). -/
def branchLine (b : BranchInfo) : String :=
  "  " ++ b.name ++ " (" ++ b.commitSha.take 7 ++ ")"

/-- The list_branches handler. -/
def list_branches (u : BranchesUpstream) : Envelope :=
  if !(okResp u.res) then errEnvelope u.res
  else
    { text := "Branches:\n" ++ String.intercalate "\n" (u.branches.map branchLine),
      isError := false }

/-! The get_file_tree handler: the one three-hop composition.  Its
result carries the ordered list of upstream request paths issued, so
that early abort is visible. -/

/-- Fixed repository coordinates from the source. -/
def OWNER : String := "adamcfield"

/-- Fixed repository name from the source. -/
def REPO : String := "rightcraft-io"

/-- Request path of the first hop (branch ref lookup). -/
def refReqPath (r : String) : String :=
  "/repos/" ++ OWNER ++ "/" ++ REPO ++ "/git/ref/heads/" ++ r

/-- Request path of the second hop (commit lookup). -/
def commitReqPath (sha : String) : String :=
  "/repos/" ++ OWNER ++ "/" ++ REPO ++ "/git/commits/" ++ sha

/-- Request path of the third hop (recursive tree fetch). -/
def treeReqPath (sha : String) : String :=
  "/repos/" ++ OWNER ++ "/" ++ REPO ++ "/git/trees/" ++ sha ++ "?recursive=1"

/-- One entry of the recursive tree response. -/
structure TreeEntry where
  path : String
  type : String
  size : Option Nat
  deriving Repr, DecidableEq

/-- Parsed recursive tree response body. -/
structure TreeData where
  tree : List TreeEntry
  truncated : Bool
  deriving Repr, DecidableEq

/-- Upstream oracle for get_file_tree: the three hop responses and the
parsed fields the code reads from each
(`refData.object.sha`, `commitData.tree.sha`, the tree body). -/
structure TreeUpstream where
  refRes : HttpResp
  refObjectSha : String
  commitRes : HttpResp
  commitTreeSha : String
  treeRes : HttpResp
  treeData : TreeData
  deriving Repr, DecidableEq

/-- JavaScript's `s.startsWith(pre)`, modelled character-wise on the
underlying character lists. -/
def strStartsWith (s pre : String) : Bool :=
  pre.data.isPrefixOf s.data

/-- Entries of the tree filtered to blobs:
`treeData.tree.filter((e) => e.type === "blob")`. -/
def blobEntries (td : TreeData) : List TreeEntry :=
  td.tree.filter (fun e => e.type == "blob")

/-- Entries after the optional path-prefix filter (applied only for a
truthy, i.e. nonempty, prefix argument, per `if (path_prefix)`). -/
def treeEntriesOf (td : TreeData) (pfx : Option String) : List TreeEntry :=
  if jsStrTruthy pfx then
    (blobEntries td).filter (fun e => strStartsWith e.path (pfx.getD ""))
  else blobEntries td

/-- The truncation warning appended when `treeData.truncated`. -/
def treeWarning : String := "\n\n(tree was truncated — repo has many files)"

/-- The success text before the optional truncation warning. -/
def treeRenderBase (td : TreeData) (pfx : Option String) : String :=
  let entries := treeEntriesOf td pfx
  toString entries.length ++ " files"
    ++ (if jsStrTruthy pfx then " under '" ++ pfx.getD "" ++ "'" else "")
    ++ ":\n" ++ String.intercalate "\n" (entries.map (fun e => e.path))

/-- The get_file_tree handler.  Returns the envelope and the ordered
list of upstream request paths issued. -/
def get_file_tree (u : TreeUpstream) (branch pfx : Option String) :
    Envelope × List String :=
  let ref := refOf branch
  if !(okResp u.refRes) then
    (errEnvelope u.refRes, [refReqPath ref])
  else if !(okResp u.commitRes) then
    (errEnvelope u.commitRes, [refReqPath ref, commitReqPath u.refObjectSha])
  else if !(okResp u.treeRes) then
    (errEnvelope u.treeRes,
     [refReqPath ref, commitReqPath u.refObjectSha, treeReqPath u.commitTreeSha])
  else
    ({ text := treeRenderBase u.treeData pfx
         ++ (if u.treeData.truncated then treeWarning else ""),
       isError := false },
     [refReqPath ref, commitReqPath u.refObjectSha, treeReqPath u.commitTreeSha])

/-! The list_prs handler. -/

/-- One pull request of the listing response (fields the code reads). -/
structure PrSummary where
  number : Nat
  title : String
  state : String
  draft : Bool
  userLogin : String
  headRef : String
  baseRef : String
  created_at : String
  html_url : String
  deriving Repr, DecidableEq

/-- Upstream oracle for list_prs. -/
structure ListPrsUpstream where
  res : HttpResp
  prs : List PrSummary
  deriving Repr, DecidableEq

/-- Rendered block for one listed pull request. -/
def prSummaryLine (pr : PrSummary) : String :=
  "#" ++ toString pr.number ++ (if pr.draft then " [DRAFT]" else "")
    ++ " [" ++ pr.state ++ "] " ++ pr.title
    ++ "\n  " ++ pr.headRef ++ " → " ++ pr.baseRef ++ " by @" ++ pr.userLogin
    ++ " (" ++ pr.created_at.take 10 ++ ")\n  " ++ pr.html_url

/-- The list_prs handler (`state` defaults to "open" in the empty-list
message via JS truthiness of the argument). -/
def list_prs (u : ListPrsUpstream) (state : Option String) : Envelope :=
  if !(okResp u.res) then errEnvelope u.res
  else if u.prs.length == 0 then
    { text := "No " ++ (if jsStrTruthy state then state.getD "" else "open")
        ++ " pull requests found.",
      isError := false }
  else
    { text := String.intercalate "\n\n" (u.prs.map prSummaryLine),
      isError := false }

/-! The get_pr handler. -/

/-- Parsed detail of one pull request (fields the code reads; reviewer
and label lists are reduced to the projected login/name strings). -/
structure PrDetail where
  number : Nat
  title : String
  body : Option String
  state : String
  draft : Bool
  merged : Bool
  userLogin : String
  headRef : String
  baseRef : String
  created_at : String
  updated_at : String
  html_url : String
  requested_reviewers : List String
  labels : List String
  commits : Nat
  additions : Nat
  deletions : Nat
  changed_files : Nat
  deriving Repr, DecidableEq

/-- Upstream oracle for get_pr. -/
structure GetPrUpstream where
  res : HttpResp
  pr : PrDetail
  deriving Repr, DecidableEq

/-- The unfiltered rendered lines of get_pr, before `.filter(Boolean)`
removes the empty strings. -/
def getPrLines (pr : PrDetail) : List String :=
  ["PR #" ++ toString pr.number ++ (if pr.draft then " [DRAFT]" else "") ++ ": " ++ pr.title,
   "State: " ++ pr.state ++ (if pr.merged then " (merged)" else ""),
   "Author: @" ++ pr.userLogin,
   "Branch: " ++ pr.headRef ++ " → " ++ pr.baseRef,
   "Commits: " ++ toString pr.commits ++ " | +" ++ toString pr.additions
     ++ " -" ++ toString pr.deletions ++ " in " ++ toString pr.changed_files ++ " file(s)",
   "Created: " ++ pr.created_at.take 10 ++ " | Updated: " ++ pr.updated_at.take 10,
   if pr.requested_reviewers.length > 0 then
     "Reviewers: " ++ String.intercalate ", " (pr.requested_reviewers.map (fun r => "@" ++ r))
   else "",
   if pr.labels.length > 0 then "Labels: " ++ String.intercalate ", " pr.labels else "",
   (match pr.body with
    | some b => if b != "" then "\nDescription:\n" ++ b else ""
    | none => ""),
   "\nURL: " ++ pr.html_url]

/-- The get_pr handler. -/
def get_pr (u : GetPrUpstream) : Envelope :=
  if !(okResp u.res) then errEnvelope u.res
  else
    { text := String.intercalate "\n" ((getPrLines u.pr).filter (fun l => l != "")),
      isError := false }

/-! The create_pr handler: the one handler that parses a non-success
body instead of surfacing it verbatim. -/

/-- Parsed fields of a non-success create_pr response body:
`data.message` and, when the `errors` field is present, the `message`
of each structured error (an empty list models `errors: []`). -/
structure CreatePrErrorData where
  message : String
  errors : Option (List String)
  deriving Repr, DecidableEq

/-- Parsed fields of a success create_pr response body. -/
structure CreatePrData where
  number : Nat
  html_url : String
  title : String
  deriving Repr, DecidableEq

/-- Upstream oracle for create_pr.  The code parses the body as JSON on
both branches, so both parsed shapes are part of the oracle. -/
structure CreatePrUpstream where
  res : HttpResp
  errData : CreatePrErrorData
  prData : CreatePrData
  deriving Repr, DecidableEq

/-- Message selection on create_pr failure:
`data.errors ? data.errors.map((e) => e.message).join("; ") : data.message`
(any present array is truthy, even an empty one). -/
def createPrErrMsg (d : CreatePrErrorData) : String :=
  match d.errors with
  | some es => String.intercalate "; " es
  | none => d.message

/-- The create_pr handler. -/
def create_pr (u : CreatePrUpstream) : Envelope :=
  if !(okResp u.res) then
    { text := "Error " ++ toString u.res.status ++ ": " ++ createPrErrMsg u.errData,
      isError := true }
  else
    { text := "PR #" ++ toString u.prData.number ++ " created: " ++ u.prData.title
        ++ "\n" ++ u.prData.html_url,
      isError := false }

/-! The merge_pr handler. -/

/-- Parsed fields of a merge response body. -/
structure MergeData where
  sha : String
  merged : Bool
  message : String
  deriving Repr, DecidableEq

/-- Upstream oracle for merge_pr. -/
structure MergeUpstream where
  res : HttpResp
  data : MergeData
  deriving Repr, DecidableEq

/-- The merge_pr handler.  Note the success text renders `data.sha` in
full, with no seven-character truncation. -/
def merge_pr (u : MergeUpstream) (pull_number : Nat) : Envelope :=
  if !(okResp u.res) then errEnvelope u.res
  else
    { text := "PR #" ++ toString pull_number ++ " merged successfully.\n"
        ++ u.data.message ++ "\nCommit: " ++ u.data.sha,
      isError := false }

/-! The close_pr handler. -/

/-- Parsed fields of the close (PATCH) response body. -/
structure ClosePrData where
  number : Nat
  title : String
  html_url : String
  deriving Repr, DecidableEq

/-- Upstream oracle for close_pr. -/
structure ClosePrUpstream where
  res : HttpResp
  pr : ClosePrData
  deriving Repr, DecidableEq

/-- The close_pr handler. -/
def close_pr (u : ClosePrUpstream) : Envelope :=
  if !(okResp u.res) then errEnvelope u.res
  else
    { text := "PR #" ++ toString u.pr.number ++ " closed: " ++ u.pr.title
        ++ "\n" ++ u.pr.html_url,
      isError := false }

/-! The add_pr_comment handler. -/

/-- Parsed fields of the created comment. -/
structure CommentData where
  id : Nat
  html_url : String
  deriving Repr, DecidableEq

/-- Upstream oracle for add_pr_comment. -/
structure CommentUpstream where
  res : HttpResp
  comment : CommentData
  deriving Repr, DecidableEq

/-- The add_pr_comment handler. -/
def add_pr_comment (u : CommentUpstream) (pull_number : Nat) : Envelope :=
  if !(okResp u.res) then errEnvelope u.res
  else
    { text := "Comment added to PR #" ++ toString pull_number ++ ". Comment ID: "
        ++ toString u.comment.id ++ "\n" ++ u.comment.html_url,
      isError := false }

/-! The request_pr_review handler. -/

/-- The request_pr_review handler (success text is built from the
arguments only). -/
def request_pr_review (res : HttpResp) (pull_number : Nat)
    (reviewers : List String) : Envelope :=
  if !(okResp res) then errEnvelope res
  else
    { text := "Review requested from: "
        ++ String.intercalate ", " (reviewers.map (fun r => "@" ++ r))
        ++ " on PR #" ++ toString pull_number,
      isError := false }

example : atobStr "SGVsbG8=" = "Hello" := by decide
example : encodeContent "Hello" = "SGVsbG8=" := by decide

/-! Claim theorems. -/

/-- C6 counterexample: the registry does not contain fourteen
operation entries — `GitHubMCP.init` registers thirteen tools. -/
theorem registry_not_fourteen : toolNames.length ≠ 14 := by decide

/-- C6 (amended): the tool registry, fixed at startup, contains exactly
thirteen operation entries, and every registered operation name is
unique within the registry. -/
theorem registry_thirteen_unique : toolNames.length = 13 ∧ toolNames.Nodup := by
  exact ⟨by decide, by decide⟩

/-- C2: in get_file_tree, a non-success status at any of the three
sequential hops aborts the operation with that hop's error envelope and
issues no subsequent request; in particular a second-hop failure
returns the commit lookup's error envelope after exactly the first two
requests, so the first hop's result is discarded and no third call is
made. -/
theorem get_file_tree_hop_failure_aborts (u : TreeUpstream)
    (branch pfx : Option String) :
    (okResp u.refRes = false →
      get_file_tree u branch pfx =
        (errEnvelope u.refRes, [refReqPath (refOf branch)])) ∧
    (okResp u.refRes = true → okResp u.commitRes = false →
      get_file_tree u branch pfx =
        (errEnvelope u.commitRes,
         [refReqPath (refOf branch), commitReqPath u.refObjectSha])) ∧
    (okResp u.refRes = true → okResp u.commitRes = true → okResp u.treeRes = false →
      get_file_tree u branch pfx =
        (errEnvelope u.treeRes,
         [refReqPath (refOf branch), commitReqPath u.refObjectSha,
          treeReqPath u.commitTreeSha])) := by
  refine ⟨fun h => ?_, fun h1 h2 => ?_, fun h1 h2 h3 => ?_⟩
  · simp [get_file_tree, h]
  · simp [get_file_tree, h1, h2]
  · simp [get_file_tree, h1, h2, h3]

/-- Concrete oracle for the C2 witness: first hop succeeds, commit
lookup fails with 404. -/
def treeUpstreamW : TreeUpstream :=
  { refRes := ⟨200, ""⟩, refObjectSha := "0a1b2c3d4e5f6071829304a5b6c7d8e9f0a1b2c3",
    commitRes := ⟨404, "Not Found"⟩, commitTreeSha := "t",
    treeRes := ⟨200, ""⟩, treeData := ⟨[], false⟩ }

/-- C2 witness: on a concrete second-hop failure the operation returns
the commit lookup's error envelope after exactly two requests. -/
theorem get_file_tree_hop_failure_aborts_witness :
    okResp treeUpstreamW.refRes = true ∧ okResp treeUpstreamW.commitRes = false ∧
    get_file_tree treeUpstreamW (some "main") none =
      (errEnvelope treeUpstreamW.commitRes,
       [refReqPath (refOf (some "main")), commitReqPath treeUpstreamW.refObjectSha]) :=
  ⟨by decide, by decide,
   (get_file_tree_hop_failure_aborts treeUpstreamW (some "main") none).2.1
     (by decide) (by decide)⟩

/-- C5: on a successful get_file_tree, the rendered entries contain
only blob-kind entries; for a (truthy) path-prefix argument the entries
are exactly the blob entries whose path starts with that prefix, a
sublist of the unfiltered blob listing; and when the upstream marks the
tree truncated the truncation warning is appended to the output text. -/
theorem get_file_tree_success_filtering (u : TreeUpstream)
    (branch pfx : Option String)
    (h1 : okResp u.refRes = true) (h2 : okResp u.commitRes = true)
    (h3 : okResp u.treeRes = true) :
    (get_file_tree u branch pfx).1.isError = false ∧
    (get_file_tree u branch pfx).1.text =
      treeRenderBase u.treeData pfx
        ++ (if u.treeData.truncated then treeWarning else "") ∧
    (∀ e ∈ treeEntriesOf u.treeData pfx, e.type = "blob") ∧
    (∀ s, pfx = some s → s ≠ "" →
      treeEntriesOf u.treeData pfx
        = (blobEntries u.treeData).filter (fun e => strStartsWith e.path s)) ∧
    (∀ s, pfx = some s → s ≠ "" →
      ∀ e ∈ treeEntriesOf u.treeData pfx, strStartsWith e.path s = true) ∧
    (treeEntriesOf u.treeData pfx).Sublist (blobEntries u.treeData) := by
  have hmemblob : ∀ e ∈ treeEntriesOf u.treeData pfx, e ∈ blobEntries u.treeData := by
    intro e he
    by_cases ht : jsStrTruthy pfx = true
    · simp only [treeEntriesOf, ht, if_true] at he
      exact (List.mem_filter.mp he).1
    · simp only [treeEntriesOf, ht, if_false, Bool.not_eq_true] at he
      simpa using he
  have hfiltered : ∀ s, pfx = some s → s ≠ "" →
      treeEntriesOf u.treeData pfx
        = (blobEntries u.treeData).filter (fun e => strStartsWith e.path s) := by
    intro s hs hne
    subst hs
    have ht : jsStrTruthy (some s) = true := by
      simp [jsStrTruthy, hne]
    simp [treeEntriesOf, ht]
  refine ⟨?_, ?_, ?_, hfiltered, ?_, ?_⟩
  · simp [get_file_tree, h1, h2, h3]
  · simp [get_file_tree, h1, h2, h3]
  · intro e he
    have hb := hmemblob e he
    simp only [blobEntries, List.mem_filter] at hb
    simpa using hb.2
  · intro s hs hne e he
    rw [hfiltered s hs hne] at he
    simpa using (List.mem_filter.mp he).2
  · by_cases ht : jsStrTruthy pfx = true
    · simp only [treeEntriesOf, ht, if_true]
      exact List.filter_sublist _
    · simp only [treeEntriesOf, ht, if_false, Bool.not_eq_true]
      simp [ht]

/-- Concrete oracle for the C5 witness (end-to-end scenario C): the
recursive tree holds a blob under src/, a tree entry, and a blob
elsewhere. -/
def treeSuccessW : TreeUpstream :=
  { refRes := ⟨200, ""⟩, refObjectSha := "c",
    commitRes := ⟨200, ""⟩, commitTreeSha := "t",
    treeRes := ⟨200, ""⟩,
    treeData := ⟨[⟨"src/a.ts", "blob", some 10⟩, ⟨"src/", "tree", none⟩,
                  ⟨"docs/b.md", "blob", some 5⟩], false⟩ }

/-- C5 witness: on scenario C's tree with path prefix src/, the result
is a success envelope and the filtered entries are exactly the one blob
under src/. -/
theorem get_file_tree_success_filtering_witness :
    okResp treeSuccessW.refRes = true ∧
    (get_file_tree treeSuccessW (some "main") (some "src/")).1.isError = false ∧
    (treeEntriesOf treeSuccessW.treeData (some "src/")).map (fun e => e.path)
      = ["src/a.ts"] :=
  ⟨by decide,
   (get_file_tree_success_filtering treeSuccessW (some "main") (some "src/")
     (by decide) (by decide) (by decide)).1,
   by decide⟩

/-- C9: a non-success status on write_file's preliminary existence
check is treated as the file being absent: the PUT body carries no sha
field and, on PUT success, the envelope is the non-error "created"
confirmation rather than any surfaced existence-check error. -/
theorem write_file_check_failure_treated_as_create (u : WriteUpstream)
    (path content message : String) (branch : Option String)
    (hx : okResp u.existingRes = false) :
    (write_file u path content message branch).putBody.sha = none ∧
    (okResp u.putRes = true →
      (write_file u path content message branch).env =
        { text := "File " ++ "created" ++ ": " ++ path ++ " (commit: "
            ++ writeShortSha u ++ ")",
          isError := false }) := by
  have hsha : writeCheckSha u = none := by simp [writeCheckSha, hx]
  constructor
  · rcases Bool.eq_false_or_eq_true (okResp u.putRes) with hp | hp <;>
      simp [write_file, hsha, jsStrTruthy, hp]
  · intro hp
    simp [write_file, hsha, jsStrTruthy, hp]

/-- Concrete oracle for the C9 witness: the existence check fails with
a 500, the PUT succeeds. -/
def writeCheckFailW : WriteUpstream :=
  { existingRes := ⟨500, "Internal Server Error"⟩,
    existingSha := some "5d41402abc4b2a76b9719d911017c592aaaaaaaa",
    putRes := ⟨201, ""⟩,
    putCommitSha := some "0123456789abcdef0123456789abcdef01234567" }

/-- C9 witness: on a concrete failed existence check the PUT body omits
the sha and the confirmation reports the file as created. -/
theorem write_file_check_failure_treated_as_create_witness :
    okResp writeCheckFailW.existingRes = false ∧
    (write_file writeCheckFailW "a.txt" "hi" "msg" none).putBody.sha = none ∧
    (write_file writeCheckFailW "a.txt" "hi" "msg" none).env =
      { text := "File " ++ "created" ++ ": " ++ "a.txt" ++ " (commit: "
          ++ writeShortSha writeCheckFailW ++ ")",
        isError := false } := by
  have h := write_file_check_failure_treated_as_create writeCheckFailW
    "a.txt" "hi" "msg" none (by decide)
  exact ⟨by decide, h.1, h.2 (by decide)⟩

/-- C10: on a success response whose parsed type is file but whose
content string is empty, read_file returns the directory-mismatch
guidance envelope; the successful decoded-text path is reached exactly
when the type is file and the content is present and nonempty. -/
theorem read_file_empty_content_directory_error (u : ReadFileUpstream)
    (path : String) (hok : okResp u.res = true) :
    (u.data.type = some "file" → u.data.content = some "" →
      read_file u path = { text := dirErrorText path, isError := true }) ∧
    ((read_file u path).isError = false ↔
      u.data.type = some "file" ∧ ¬ u.data.content.getD "" = "") := by
  constructor
  · intro hty hc
    simp [read_file, hok, hty, hc]
  · by_cases hcond : (u.data.type != some "file" || u.data.content.getD "" == "") = true
    · simp only [read_file, hok, Bool.not_true, if_false, hcond, if_true]
      simp only [Bool.or_eq_true, bne_iff_ne, beq_iff_eq] at hcond
      constructor
      · intro h; exact absurd h (by simp)
      · intro h
        rcases hcond with hc | hc
        · exact absurd h.1 hc
        · exact absurd hc h.2
    · simp only [read_file, hok, Bool.not_true, if_false, hcond, if_true]
      simp only [Bool.or_eq_true, bne_iff_ne, beq_iff_eq, not_or, not_not] at hcond
      constructor
      · intro _; exact ⟨hcond.1, hcond.2⟩
      · intro _; rfl

/-- Concrete oracle for the C10 witness: success status, type file,
empty content string. -/
def readEmptyContentW : ReadFileUpstream :=
  { res := ⟨200, ""⟩, data := { type := some "file", content := some "" } }

/-- C10 witness: on the concrete empty-content file response, read_file
returns the directory guidance envelope with the error flag set. -/
theorem read_file_empty_content_directory_error_witness :
    okResp readEmptyContentW.res = true ∧
    read_file readEmptyContentW "f.txt" =
      { text := dirErrorText "f.txt", isError := true } :=
  ⟨by decide,
   (read_file_empty_content_directory_error readEmptyContentW "f.txt"
     (by decide)).1 rfl rfl⟩

/-- C4: write_file's PUT body omits the sha field exactly when the
existence check produced no (truthy) version token, includes exactly
the found token otherwise, and the success confirmation says created
respectively updated under the same condition. -/
theorem write_file_sha_and_confirmation (u : WriteUpstream)
    (path content message : String) (branch : Option String) :
    (jsStrTruthy (writeCheckSha u) = false →
      (write_file u path content message branch).putBody.sha = none ∧
      (okResp u.putRes = true →
        (write_file u path content message branch).env.text =
          "File " ++ "created" ++ ": " ++ path ++ " (commit: "
            ++ writeShortSha u ++ ")")) ∧
    (∀ s, writeCheckSha u = some s → s ≠ "" →
      (write_file u path content message branch).putBody.sha = some s ∧
      (okResp u.putRes = true →
        (write_file u path content message branch).env.text =
          "File " ++ "updated" ++ ": " ++ path ++ " (commit: "
            ++ writeShortSha u ++ ")")) := by
  constructor
  · intro hf
    constructor
    · rcases Bool.eq_false_or_eq_true (okResp u.putRes) with hp | hp <;>
        simp [write_file, hf, hp]
    · intro hp
      simp [write_file, hf, hp]
  · intro s hs hne
    have ht : jsStrTruthy (some s) = true := by
      simp [jsStrTruthy, hne]
    constructor
    · rcases Bool.eq_false_or_eq_true (okResp u.putRes) with hp | hp <;>
        simp [write_file, hs, ht, hp]
    · intro hp
      simp [write_file, hs, ht, hp]

/-- Concrete oracle for the C4 witness: the existence check finds a
sha, the PUT succeeds. -/
def writeUpdateW : WriteUpstream :=
  { existingRes := ⟨200, ""⟩,
    existingSha := some "5d41402abc4b2a76b9719d911017c592bbbbbbbb",
    putRes := ⟨200, ""⟩,
    putCommitSha := some "fedcba9876543210fedcba9876543210fedcba98" }

/-- C4 witness: with a concrete found version token the PUT body
carries exactly that token and the confirmation says updated. -/
theorem write_file_sha_and_confirmation_witness :
    writeCheckSha writeUpdateW = some "5d41402abc4b2a76b9719d911017c592bbbbbbbb" ∧
    (write_file writeUpdateW "a.txt" "hi" "msg" none).putBody.sha =
      some "5d41402abc4b2a76b9719d911017c592bbbbbbbb" ∧
    (write_file writeUpdateW "a.txt" "hi" "msg" none).env.text =
      "File " ++ "updated" ++ ": " ++ "a.txt" ++ " (commit: "
        ++ writeShortSha writeUpdateW ++ ")" := by
  have h := (write_file_sha_and_confirmation writeUpdateW "a.txt" "hi" "msg" none).2
    "5d41402abc4b2a76b9719d911017c592bbbbbbbb" (by decide) (by decide)
  exact ⟨by decide, h.1, h.2 (by decide)⟩

/-- Concrete oracle for the C7 counterexample: a successful merge
response carrying a full forty-character commit sha. -/
def mergeUpstreamW : MergeUpstream :=
  { res := ⟨200, ""⟩,
    data := { sha := "3f786850e387550fdab836ed7e6dc881de23001b", merged := true,
              message := "Pull Request successfully merged" } }

/-- C7 counterexample: merge_pr's success output renders the commit sha
in full (forty characters), not truncated to seven, so not every
rendered hash is shown at seven characters. -/
theorem merge_pr_full_sha_shown :
    (merge_pr mergeUpstreamW 42).isError = false ∧
    (merge_pr mergeUpstreamW 42).text =
      "PR #42 merged successfully.\nPull Request successfully merged\nCommit: 3f786850e387550fdab836ed7e6dc881de23001b" ∧
    "3f786850e387550fdab836ed7e6dc881de23001b".length = 40 := by
  exact ⟨by decide, by decide, by decide⟩

/-- C7 (amended): write_file and list_branches render commit shas
truncated to seven characters, while merge_pr renders the merge commit
sha in full. -/
theorem sha_rendering_amended
    (u : WriteUpstream) (path content message : String) (branch : Option String)
    (v : BranchesUpstream) (w : MergeUpstream) (n : Nat) (s : String)
    (hu : okResp u.putRes = true) (hs : u.putCommitSha = some s)
    (hs7 : ¬ s.take 7 = "")
    (hv : okResp v.res = true) (hw : okResp w.res = true) :
    writeShortSha u = s.take 7 ∧
    (write_file u path content message branch).env.text =
      "File " ++ (if jsStrTruthy (writeCheckSha u) then "updated" else "created")
        ++ ": " ++ path ++ " (commit: " ++ s.take 7 ++ ")" ∧
    (list_branches v).text =
      "Branches:\n" ++ String.intercalate "\n" (v.branches.map branchLine) ∧
    (∀ b : BranchInfo, branchLine b = "  " ++ b.name ++ " (" ++ b.commitSha.take 7 ++ ")") ∧
    (merge_pr w n).text =
      "PR #" ++ toString n ++ " merged successfully.\n" ++ w.data.message
        ++ "\nCommit: " ++ w.data.sha := by
  have hshort : writeShortSha u = s.take 7 := by
    simp [writeShortSha, hs, hs7]
  refine ⟨hshort, ?_, ?_, fun b => rfl, ?_⟩
  · rcases Bool.eq_false_or_eq_true (jsStrTruthy (writeCheckSha u)) with ht | ht <;>
      simp [write_file, ht, hu, hshort]
  · simp [list_branches, hv]
  · simp [merge_pr, hw]

/-- Concrete oracle for the C7 witness: one branch listing and a
write_file PUT success. -/
def branchesW : BranchesUpstream :=
  { res := ⟨200, ""⟩,
    branches := [⟨"main", "0a1b2c3d4e5f6071829304a5b6c7d8e9f0a1b2c3"⟩] }

/-- C7 witness: on concrete inputs write_file renders the seven
character short sha and list_branches renders each branch with a seven
character sha, while merge_pr renders the full sha. -/
theorem sha_rendering_amended_witness :
    writeShortSha writeUpdateW = "fedcba9" ∧
    (list_branches branchesW).text = "Branches:\n  main (0a1b2c3)" ∧
    (merge_pr mergeUpstreamW 7).text =
      "PR #7 merged successfully.\nPull Request successfully merged\nCommit: 3f786850e387550fdab836ed7e6dc881de23001b" := by
  have h := sha_rendering_amended writeUpdateW "a.txt" "hi" "msg" none
    branchesW mergeUpstreamW 7 "fedcba9876543210fedcba9876543210fedcba98"
    (by decide) (by decide) (by decide) (by decide) (by decide)
  refine ⟨?_, ?_, ?_⟩
  · rw [h.1]; decide
  · rw [h.2.2.1]; decide
  · rw [h.2.2.2.2]; decide

/-- Concrete oracle for the C8 counterexample: a 422 response whose
structured errors list holds two messages. -/
def createPrTwoErrorsW : CreatePrUpstream :=
  { res := ⟨422,
      "\x7b\"message\":\"Validation Failed\",\"errors\":[\x7b\"message\":\"first problem\"\x7d,\x7b\"message\":\"second problem\"\x7d]\x7d"⟩,
    errData := { message := "Validation Failed",
                 errors := some ["first problem", "second problem"] },
    prData := ⟨0, "", ""⟩ }

/-- C8 counterexample: with two structured errors create_pr surfaces
all messages joined by a semicolon, not the first message alone. -/
theorem create_pr_joins_all_errors :
    (create_pr createPrTwoErrorsW).text = "Error 422: first problem; second problem" ∧
    ¬ (create_pr createPrTwoErrorsW).text = "Error 422: first problem" := by
  exact ⟨by decide, by decide⟩

/-- C8 (amended): on a non-success create_pr response the envelope
surfaces every structured error message joined by a semicolon-space
separator when the errors field is present (hence exactly the first
message when that list is a singleton, and an empty message for an
empty list), else the generic message field. -/
theorem create_pr_error_message_selection (u : CreatePrUpstream)
    (h : okResp u.res = false) :
    (create_pr u).isError = true ∧
    (create_pr u).text =
      "Error " ++ toString u.res.status ++ ": " ++ createPrErrMsg u.errData ∧
    (∀ es, u.errData.errors = some es →
      createPrErrMsg u.errData = String.intercalate "; " es) ∧
    (∀ m, u.errData.errors = some [m] → createPrErrMsg u.errData = m) ∧
    (u.errData.errors = none → createPrErrMsg u.errData = u.errData.message) := by
  refine ⟨?_, ?_, ?_, ?_, ?_⟩
  · simp [create_pr, h]
  · simp [create_pr, h]
  · intro es hes; simp [createPrErrMsg, hes]
  · intro m hm
    simp only [createPrErrMsg, hm]
    rfl
  · intro hn; simp [createPrErrMsg, hn]

/-- Concrete oracle for the C8 witness: a singleton structured errors
list. -/
def createPrOneErrorW : CreatePrUpstream :=
  { res := ⟨422,
      "\x7b\"message\":\"Validation Failed\",\"errors\":[\x7b\"message\":\"A pull request already exists\"\x7d]\x7d"⟩,
    errData := { message := "Validation Failed",
                 errors := some ["A pull request already exists"] },
    prData := ⟨0, "", ""⟩ }

/-- C8 witness: on a concrete singleton errors list the surfaced
message is that single structured message. -/
theorem create_pr_error_message_selection_witness :
    okResp createPrOneErrorW.res = false ∧
    (create_pr createPrOneErrorW).isError = true ∧
    createPrErrMsg createPrOneErrorW.errData = "A pull request already exists" := by
  have h := create_pr_error_message_selection createPrOneErrorW (by decide)
  exact ⟨by decide, h.1, h.2.2.2.1 "A pull request already exists" rfl⟩

/-- Concrete oracle for the C3 evaluation: a success response whose
content is exactly write_file's encoding of the one-character text
containing é. -/
def readNonAsciiW : ReadFileUpstream :=
  { res := ⟨200, ""⟩,
    data := { type := some "file", content := some (encodeContent "é") } }

/-- C3: the decode applied by read_file does not invert the encode
applied by write_file on all text.  Feeding read_file the stored
encoding of the text é yields the two-character UTF-8 byte string Ã©,
because `atob` undoes only the base64 step and not the
`unescape(encodeURIComponent(...))` byte encoding. -/
theorem read_file_write_file_roundtrip_fails :
    encodeContent "é" = "w6k=" ∧
    read_file readNonAsciiW "f.txt" = { text := "Ã©", isError := false } ∧
    ¬ read_file readNonAsciiW "f.txt" = { text := "é", isError := false } := by
  exact ⟨by decide, by decide, by decide⟩

/-- Concrete oracle for the C1 counterexample: a non-success create_pr
response whose raw body differs from the message the handler extracts
from it. -/
def createPrVerbatimW : CreatePrUpstream :=
  { res := ⟨422,
      "\x7b\"message\":\"Validation Failed\",\"errors\":[\x7b\"message\":\"No commits between main and feature\"\x7d]\x7d"⟩,
    errData := { message := "Validation Failed",
                 errors := some ["No commits between main and feature"] },
    prData := ⟨0, "", ""⟩ }

/-- C1 counterexample: create_pr does not surface the upstream
diagnostic body verbatim — on a concrete 422 its envelope text is the
parsed structured error message, not `Error 422:` followed by the raw
body. -/
theorem create_pr_error_not_verbatim :
    (create_pr createPrVerbatimW).isError = true ∧
    (create_pr createPrVerbatimW).text =
      "Error 422: No commits between main and feature" ∧
    ¬ (create_pr createPrVerbatimW).text =
        "Error " ++ toString createPrVerbatimW.res.status ++ ": "
          ++ createPrVerbatimW.res.body := by
  exact ⟨by decide, by decide, by decide⟩

/-- C1 (amended): for every registered operation other than create_pr,
a non-success final upstream response yields exactly the envelope with
the error flag set and text `Error <status>: <body>` with the raw body
verbatim; create_pr also sets the error flag and the `Error <status>: `
text head, but after it surfaces the message parsed out of the body
rather than the body itself. -/
theorem upstream_error_envelope_format
    (u1 : ReadFileUpstream) (p1 : String)
    (u2 : WriteUpstream) (p2 c2 m2 : String) (b2 : Option String)
    (u3 : ListFilesUpstream) (p3 : Option String)
    (u4 : SearchUpstream) (q4 : String)
    (u5 : BranchesUpstream)
    (u6 : TreeUpstream) (b6 pfx6 : Option String)
    (u7 : ListPrsUpstream) (s7 : Option String)
    (u8 : GetPrUpstream)
    (u9 : CreatePrUpstream)
    (u10 : MergeUpstream) (n10 : Nat)
    (u11 : ClosePrUpstream)
    (u12 : CommentUpstream) (n12 : Nat)
    (r13 : HttpResp) (n13 : Nat) (rev13 : List String) :
    (okResp u1.res = false → read_file u1 p1 = errEnvelope u1.res) ∧
    (okResp u2.putRes = false →
      (write_file u2 p2 c2 m2 b2).env = errEnvelope u2.putRes) ∧
    (okResp u3.res = false → list_files u3 p3 = errEnvelope u3.res) ∧
    (okResp u4.res = false → search_files u4 q4 = errEnvelope u4.res) ∧
    (okResp u5.res = false → list_branches u5 = errEnvelope u5.res) ∧
    (∀ r : HttpResp,
      ((okResp u6.refRes = false ∧ r = u6.refRes) ∨
       (okResp u6.refRes = true ∧ okResp u6.commitRes = false ∧ r = u6.commitRes) ∨
       (okResp u6.refRes = true ∧ okResp u6.commitRes = true ∧
        okResp u6.treeRes = false ∧ r = u6.treeRes)) →
      (get_file_tree u6 b6 pfx6).1 = errEnvelope r) ∧
    (okResp u7.res = false → list_prs u7 s7 = errEnvelope u7.res) ∧
    (okResp u8.res = false → get_pr u8 = errEnvelope u8.res) ∧
    (okResp u9.res = false →
      (create_pr u9).isError = true ∧
      (create_pr u9).text =
        "Error " ++ toString u9.res.status ++ ": " ++ createPrErrMsg u9.errData) ∧
    (okResp u10.res = false → merge_pr u10 n10 = errEnvelope u10.res) ∧
    (okResp u11.res = false → close_pr u11 = errEnvelope u11.res) ∧
    (okResp u12.res = false → add_pr_comment u12 n12 = errEnvelope u12.res) ∧
    (okResp r13 = false → request_pr_review r13 n13 rev13 = errEnvelope r13) := by
  refine ⟨fun h => ?_, fun h => ?_, fun h => ?_, fun h => ?_, fun h => ?_,
          fun r hr => ?_, fun h => ?_, fun h => ?_, fun h => ?_, fun h => ?_,
          fun h => ?_, fun h => ?_, fun h => ?_⟩
  · simp [read_file, h]
  · simp [write_file, h]
  · simp [list_files, h]
  · simp [search_files, h]
  · simp [list_branches, h]
  · rcases hr with ⟨h1, rfl⟩ | ⟨h1, h2, rfl⟩ | ⟨h1, h2, h3, rfl⟩
    · simp [get_file_tree, h1]
    · simp [get_file_tree, h1, h2]
    · simp [get_file_tree, h1, h2, h3]
  · simp [list_prs, h]
  · simp [get_pr, h]
  · simp [create_pr, h]
  · simp [merge_pr, h]
  · simp [close_pr, h]
  · simp [add_pr_comment, h]
  · simp [request_pr_review, h]

/-- Shared concrete non-success response for the C1 witness. -/
def resNF : HttpResp := ⟨404, "Not Found"⟩

/-- Concrete oracles for the C1 witness, one per single-call handler,
each with a non-success final response. -/
def readFileErrW : ReadFileUpstream := { res := resNF, data := ⟨none, none⟩ }

/-- C1 witness oracle for write_file: PUT rejected. -/
def writeErrW : WriteUpstream :=
  { existingRes := ⟨200, ""⟩, existingSha := some "a", putRes := ⟨409, "Conflict"⟩,
    putCommitSha := none }

/-- C1 witness oracle for list_files. -/
def listFilesErrW : ListFilesUpstream := { res := resNF, items := none }

/-- C1 witness oracle for search_files. -/
def searchErrW : SearchUpstream := { res := ⟨403, "rate limited"⟩, data := ⟨0, []⟩ }

/-- C1 witness oracle for list_branches. -/
def branchesErrW : BranchesUpstream := { res := resNF, branches := [] }

/-- C1 witness oracle for get_file_tree: third hop fails. -/
def treeErrW : TreeUpstream :=
  { refRes := ⟨200, ""⟩, refObjectSha := "c", commitRes := ⟨200, ""⟩,
    commitTreeSha := "t", treeRes := ⟨422, "tree too big"⟩, treeData := ⟨[], false⟩ }

/-- C1 witness oracle for list_prs. -/
def listPrsErrW : ListPrsUpstream := { res := resNF, prs := [] }

/-- C1 witness oracle for get_pr. -/
def getPrErrW : GetPrUpstream :=
  { res := resNF,
    pr := ⟨1, "", none, "open", false, false, "", "", "", "", "", "", [], [], 0, 0, 0, 0⟩ }

/-- C1 witness oracle for merge_pr. -/
def mergeErrW : MergeUpstream := { res := ⟨405, "not mergeable"⟩, data := ⟨"", false, ""⟩ }

/-- C1 witness oracle for close_pr. -/
def closeErrW : ClosePrUpstream := { res := resNF, pr := ⟨1, "", ""⟩ }

/-- C1 witness oracle for add_pr_comment. -/
def commentErrW : CommentUpstream := { res := resNF, comment := ⟨0, ""⟩ }

/-- C1 witness: every handler, fed a concrete non-success final
response, returns exactly the error envelope with the `Error <status>:`
text (create_pr with its parsed message after the same head). -/
theorem upstream_error_envelope_format_witness :
    read_file readFileErrW "p" = errEnvelope resNF ∧
    (write_file writeErrW "p" "c" "m" none).env = errEnvelope ⟨409, "Conflict"⟩ ∧
    list_files listFilesErrW none = errEnvelope resNF ∧
    search_files searchErrW "q" = errEnvelope ⟨403, "rate limited"⟩ ∧
    list_branches branchesErrW = errEnvelope resNF ∧
    (get_file_tree treeErrW none none).1 = errEnvelope ⟨422, "tree too big"⟩ ∧
    list_prs listPrsErrW none = errEnvelope resNF ∧
    get_pr getPrErrW = errEnvelope resNF ∧
    ((create_pr createPrVerbatimW).isError = true ∧
      (create_pr createPrVerbatimW).text =
        "Error " ++ toString createPrVerbatimW.res.status ++ ": "
          ++ createPrErrMsg createPrVerbatimW.errData) ∧
    merge_pr mergeErrW 3 = errEnvelope ⟨405, "not mergeable"⟩ ∧
    close_pr closeErrW = errEnvelope resNF ∧
    add_pr_comment commentErrW 3 = errEnvelope resNF ∧
    request_pr_review resNF 3 ["octocat"] = errEnvelope resNF := by
  have h := upstream_error_envelope_format
    readFileErrW "p" writeErrW "p" "c" "m" none listFilesErrW none
    searchErrW "q" branchesErrW treeErrW none none listPrsErrW none
    getPrErrW createPrVerbatimW mergeErrW 3 closeErrW commentErrW 3
    resNF 3 ["octocat"]
  refine ⟨h.1 (by decide), h.2.1 (by decide), h.2.2.1 (by decide),
    h.2.2.2.1 (by decide), h.2.2.2.2.1 (by decide),
    h.2.2.2.2.2.1 treeErrW.treeRes (Or.inr (Or.inr ⟨by decide, by decide, by decide, rfl⟩)),
    h.2.2.2.2.2.2.1 (by decide), h.2.2.2.2.2.2.2.1 (by decide),
    h.2.2.2.2.2.2.2.2.1 (by decide), h.2.2.2.2.2.2.2.2.2.1 (by decide),
    h.2.2.2.2.2.2.2.2.2.2.1 (by decide), h.2.2.2.2.2.2.2.2.2.2.2.1 (by decide),
    h.2.2.2.2.2.2.2.2.2.2.2.2 (by decide)⟩
